import Mathlib

/-!
# Verification of the node-tile38 client core

A shallow embedding of the query-command compiler (`src/core/query.ts`) and
the live-geofence stream decoder (`LiveGeofence`), with theorems checking the
repository's specification against the code.

Modelling conventions:
* A JavaScript object used as a string-keyed property map is embedded as an
  association list `List (String × _)`; property assignment prepends a binding
  and property read takes the first binding for the key, which matches the
  observable read-after-write semantics of JS objects.
* A JavaScript numeric argument is embedded as the decimal literal it prints
  as (`String(n)`): sign, integer part, fractional digits. `0` is falsy.
* The external collaborators (JSON codec, socket) are parameters: the JSON
  codec is a function `String → Option J`, the socket's close event is a
  dispatch of whatever listener the code registered.
-/

namespace Tile38

/-- A JavaScript number, represented by its decimal literal: sign, integer
part, and fractional digits. This is how numeric clause arguments print when
the token array is joined with spaces. -/
structure JSNumber where
  neg : Bool
  ip : Nat
  fp : List Nat
deriving DecidableEq

/-- JS falsiness of a number: `0` (any sign, any trailing zero digits) is
falsy, everything else is truthy. -/
def JSNumber.isTruthy (n : JSNumber) : Bool :=
  !(n.ip == 0 && n.fp.all (· == 0))

/-- JS `n > 0` for a decimal literal: positive sign and nonzero. -/
def JSNumber.isPos (n : JSNumber) : Bool :=
  !n.neg && n.isTruthy

/-- `String(n)` for a decimal literal. -/
def JSNumber.render (n : JSNumber) : String :=
  (if n.neg then "-" else "") ++ toString n.ip ++
    (if n.fp.isEmpty then "" else "." ++ String.mk (n.fp.map Nat.digitChar))

/-- Embed a natural number (used for `values.length` in WHEREIN/WHEREEVAL). -/
def JSNumber.ofNat (k : Nat) : JSNumber := ⟨false, k, []⟩

/-- A `Tile38Argument`: the token arrays mix strings and numbers. -/
inductive Tile38Argument where
  | str (s : String)
  | num (n : JSNumber)
deriving DecidableEq

/-- Stringification applied to each element by `Array.prototype.join`. -/
def Tile38Argument.render : Tile38Argument → String
  | .str s => s
  | .num n => n.render

/-- The `options` object of `Tile38Query`: a JS object holding one token
array per set property. Embedded as an association list; assignment shadows
older bindings, reads take the most recent binding. -/
abbrev Tile38QueryOptions := List (String × List Tile38Argument)

/-- Property read `options[k]`: `undefined` becomes `none`. -/
def getOpt (o : Tile38QueryOptions) (k : String) : Option (List Tile38Argument) :=
  o.lookup k

/-- Property assignment `options.k = v`. -/
def setOpt (o : Tile38QueryOptions) (k : String) (v : List Tile38Argument) :
    Tile38QueryOptions :=
  (k, v) :: o

/-- The query builder `Tile38Query` from `src/core/query.ts`: a command verb,
a collection key, and the mutable options object. -/
structure Tile38Query where
  type : String
  key : String
  options : Tile38QueryOptions
deriving DecidableEq

namespace Tile38Query

/-- Mutation of `this.options` (every setter returns `this`). -/
def setOptions (q : Tile38Query) (o : Tile38QueryOptions) : Tile38Query :=
  { q with options := o }

/-- `withCursor(start)`: `this.options.cursor = ["CURSOR", start]`. -/
def withCursor (q : Tile38Query) (start : JSNumber) : Tile38Query :=
  q.setOptions (setOpt q.options "cursor" [.str "CURSOR", .num start])

/-- `withLimit(count)`: `this.options.limit = ["LIMIT", count]`. -/
def withLimit (q : Tile38Query) (count : JSNumber) : Tile38Query :=
  q.setOptions (setOpt q.options "limit" [.str "LIMIT", .num count])

/-- `withSparse(spread)`: `this.options.sparse = ["SPARSE", spread]`.
The source restricts `spread` to the literal type `1 | … | 8` statically;
there is no runtime check, so the embedding takes any number. -/
def withSparse (q : Tile38Query) (spread : JSNumber) : Tile38Query :=
  q.setOptions (setOpt q.options "sparse" [.str "SPARSE", .num spread])

/-- `withMatch(value)`:
`this.options.matches = ["MATCH", value, ...(this.options.matches || [])]`. -/
def withMatch (q : Tile38Query) (value : Tile38Argument) : Tile38Query :=
  q.setOptions (setOpt q.options "matches"
    ([.str "MATCH", value] ++ (getOpt q.options "matches").getD []))

/-- `order(direction)`: `this.options.order = [direction]`. -/
def order (q : Tile38Query) (direction : String) : Tile38Query :=
  q.setOptions (setOpt q.options "order" [.str direction])

/-- `withOrderAscending()`. -/
def withOrderAscending (q : Tile38Query) : Tile38Query := q.order "ASC"

/-- `withOrderDescending()`. -/
def withOrderDescending (q : Tile38Query) : Tile38Query := q.order "DESC"

/-- `withDistance()`: `this.options.distance = ["DISTANCE"]`. -/
def withDistance (q : Tile38Query) : Tile38Query :=
  q.setOptions (setOpt q.options "distance" [.str "DISTANCE"])

/-- `withFence()`: `this.options.fence = ["FENCE"]`. -/
def withFence (q : Tile38Query) : Tile38Query :=
  q.setOptions (setOpt q.options "fence" [.str "FENCE"])

/-- `withWhere(field, ...criteria)`: stores the new tokens followed by the
previously accumulated ones (`previous` is pushed after the new array). -/
def withWhere (q : Tile38Query) (field : String) (criteria : List Tile38Argument) :
    Tile38Query :=
  q.setOptions (setOpt q.options "where"
    ([.str "WHERE", .str field] ++ criteria ++ (getOpt q.options "where").getD []))

/-- `withWhereIn(field, ...values)`: `["WHEREIN", field, values.length,
...values]` followed by the previously accumulated tokens. -/
def withWhereIn (q : Tile38Query) (field : String) (values : List Tile38Argument) :
    Tile38Query :=
  q.setOptions (setOpt q.options "whereIn"
    ([.str "WHEREIN", .str field, .num (JSNumber.ofNat values.length)] ++ values
      ++ (getOpt q.options "whereIn").getD []))

/-- `withWhereEval(script, ...args)`: the script is wrapped in double quotes,
then `args.length` and the args, followed by the previous tokens. -/
def withWhereEval (q : Tile38Query) (script : String) (args : List Tile38Argument) :
    Tile38Query :=
  q.setOptions (setOpt q.options "whereEval"
    ([.str "WHEREEVAL", .str ("\"" ++ script ++ "\""),
      .num (JSNumber.ofNat args.length)] ++ args
      ++ (getOpt q.options "whereEval").getD []))

/-- `withWhereEvalSha(sha, ...args)`. -/
def withWhereEvalSha (q : Tile38Query) (sha : String) (args : List Tile38Argument) :
    Tile38Query :=
  q.setOptions (setOpt q.options "whereEvalSha"
    ([.str "WHEREEVALSHA", .str sha, .num (JSNumber.ofNat args.length)] ++ args
      ++ (getOpt q.options "whereEvalSha").getD []))

/-- `withClip()`: `this.options.clip = ["CLIP"]`. -/
def withClip (q : Tile38Query) : Tile38Query :=
  q.setOptions (setOpt q.options "clip" [.str "CLIP"])

/-- `withNoFields()`: `this.options.noFields = ["NOFIELDS"]`. Note the
property written is `noFields`, with a capital F. -/
def withNoFields (q : Tile38Query) : Tile38Query :=
  q.setOptions (setOpt q.options "noFields" [.str "NOFIELDS"])

/-- `withDetect(...values)`: `["DETECT", values.join(",")]`. -/
def withDetect (q : Tile38Query) (values : List String) : Tile38Query :=
  q.setOptions (setOpt q.options "detect"
    [.str "DETECT", .str (String.intercalate "," values)])

/-- `withCommands(...values)`: `["COMMANDS", values.join(",")]`. -/
def withCommands (q : Tile38Query) (values : List String) : Tile38Query :=
  q.setOptions (setOpt q.options "commands"
    [.str "COMMANDS", .str (String.intercalate "," values)])

/-- `withOutput(type, precision?)`: the precision is kept only for `HASHES`
with a truthy, positive precision. -/
def withOutput (q : Tile38Query) (type : String) (precision : Option JSNumber) :
    Tile38Query :=
  q.setOptions (setOpt q.options "output"
    (match precision with
      | some p => if type == "HASHES" && p.isTruthy && p.isPos
                    then [.str type, .num p] else [.str type]
      | none => [.str type]))

/-- `withIds()` = `withOutput("IDS")`. -/
def withIds (q : Tile38Query) : Tile38Query := q.withOutput "IDS" none

/-- `withCount()` = `withOutput("COUNT")`. -/
def withCount (q : Tile38Query) : Tile38Query := q.withOutput "COUNT" none

/-- `withObjects()` = `withOutput("OBJECTS")`. -/
def withObjects (q : Tile38Query) : Tile38Query := q.withOutput "OBJECTS" none

/-- `withPoints()` = `withOutput("POINTS")`. -/
def withPoints (q : Tile38Query) : Tile38Query := q.withOutput "POINTS" none

/-- `withHashes(precision)` = `withOutput("HASHES", precision)`. -/
def withHashes (q : Tile38Query) (precision : JSNumber) : Tile38Query :=
  q.withOutput "HASHES" (some precision)

/-- `withGetObject(key, id)`: `["GET", key, id]`. -/
def withGetObject (q : Tile38Query) (key id : String) : Tile38Query :=
  q.setOptions (setOpt q.options "getObject" [.str "GET", .str key, .str id])

/-- `withBounds(minlat, minlon, maxlat, maxlon)`. -/
def withBounds (q : Tile38Query) (minlat minlon maxlat maxlon : JSNumber) :
    Tile38Query :=
  q.setOptions (setOpt q.options "bounds"
    [.str "BOUNDS", .num minlat, .num minlon, .num maxlat, .num maxlon])

/-- `withObject(geojson)`: `["OBJECT", JSON.stringify(geojson)]`. The JSON
codec collaborator is external, so the embedding takes the serialized text. -/
def withObject (q : Tile38Query) (geojsonText : String) : Tile38Query :=
  q.setOptions (setOpt q.options "geojson" [.str "OBJECT", .str geojsonText])

/-- `withTile(x, y, z)`. -/
def withTile (q : Tile38Query) (x y z : JSNumber) : Tile38Query :=
  q.setOptions (setOpt q.options "tile" [.str "TILE", .num x, .num y, .num z])

/-- `withQuadKey(quadkey)`. -/
def withQuadKey (q : Tile38Query) (quadkey : Tile38Argument) : Tile38Query :=
  q.setOptions (setOpt q.options "quadKey" [.str "QUADKEY", quadkey])

/-- `withHash(geohash)`. -/
def withHash (q : Tile38Query) (geohash : String) : Tile38Query :=
  q.setOptions (setOpt q.options "hash" [.str "HASH", .str geohash])

/-- `withCircle(lat, lon, radius)`. -/
def withCircle (q : Tile38Query) (lat lon radius : JSNumber) : Tile38Query :=
  q.setOptions (setOpt q.options "circle"
    [.str "CIRCLE", .num lat, .num lon, .num radius])

/-- `withPoint(lat, lon, meters?)`: `["POINT", lat, lon]`, and `meters` is
pushed only under `if (meters)`, i.e. when present and truthy. -/
def withPoint (q : Tile38Query) (lat lon : JSNumber) (meters : Option JSNumber) :
    Tile38Query :=
  q.setOptions (setOpt q.options "point"
    (match meters with
      | some m => if m.isTruthy
                    then [.str "POINT", .num lat, .num lon, .num m]
                    else [.str "POINT", .num lat, .num lon]
      | none => [.str "POINT", .num lat, .num lon]))

/-- `withRoam(key, pattern, meters)`. -/
def withRoam (q : Tile38Query) (key pattern : String) (meters : JSNumber) :
    Tile38Query :=
  q.setOptions (setOpt q.options "roam"
    [.str "ROAM", .str key, .str pattern, .num meters])

/-- `commandOrder()`: the fixed list of option property names, in render
order, exactly as written in the source. -/
def commandOrder : List String :=
  ["cursor", "limit", "sparse", "matches", "order", "distance", "where",
   "whereIn", "whereEval", "whereEvalSha", "clip", "nofields", "fence", "detect",
   "commands", "output", "getObject", "bounds", "geojson", "tile", "quadKey", "hash",
   "point", "circle", "roam"]

/-- `compileCommandArray()`: starts from `[this.key]` and pushes the stored
token array of each property of `commandOrder` that is set. -/
def compileCommandArray (q : Tile38Query) : List Tile38Argument :=
  Tile38Argument.str q.key :: (commandOrder.filterMap (getOpt q.options)).flatten

/-- `compileCommand()`: `this.type + " " + this.compileCommandArray().join(" ")`. -/
def compileCommand (q : Tile38Query) : String :=
  q.type ++ " " ++ String.intercalate " " (q.compileCommandArray.map Tile38Argument.render)

end Tile38Query

/-! ## Live geofence: close-event wiring (`LiveGeofence` in the source)

The source keeps a single close-observer slot:

* the constructor initialises `onCloseCallback` to a no-op arrow function;
* `onClose(callback)` overwrites the slot (`this.onCloseCallback = callback`);
* `open(...)` wires the socket's close event with
  `socket.on("close", this.onClose)` — i.e. it registers the `onClose`
  *method itself* as the listener, not the stored callback.

Node's `EventEmitter` invokes each listener with `this` bound to the emitter
(the socket), so dispatching the unbound `onClose` method executes its body
`this.onCloseCallback = callback` with the socket as receiver: the close
event's `hadError` boolean is written as an expando property onto the socket
object, not into the geofence's slot. -/

/-- A JS value that can occupy the close-callback slot, be passed to a close
listener, or be written onto the socket: a function (abstracted by an id),
the default no-op arrow function, or the close event's boolean argument. -/
inductive JSVal where
  | bool (b : Bool)
  | func (id : Nat)
  | noopFunc
deriving DecidableEq

/-- What `open` registered as the socket's `"close"` listener. The source
registers exactly one thing: the method reference `this.onClose`. -/
inductive CloseListener where
  | onCloseMethod
deriving DecidableEq

/-- The close-relevant state of a `LiveGeofence`. -/
structure LiveGeofence where
  onCloseCallback : JSVal
  closeListener : Option CloseListener
deriving DecidableEq

namespace LiveGeofence

/-- The constructor: `this.onCloseCallback = () => { };` and no socket yet. -/
def new : LiveGeofence := ⟨JSVal.noopFunc, none⟩

/-- `onClose(callback)`: `this.onCloseCallback = callback;` — assignment
only, no function is invoked. -/
def onClose (g : LiveGeofence) (callback : JSVal) : LiveGeofence :=
  { g with onCloseCallback := callback }

/-- The close wiring performed by `open`:
`socket.on("close", this.onClose)` registers the registration method itself
as the close listener — unbound, so its receiver is chosen at dispatch. -/
def openWireClose (g : LiveGeofence) : LiveGeofence :=
  { g with closeListener := some CloseListener.onCloseMethod }

end LiveGeofence

/-- The receiver (`this`) a JS method body runs with: the geofence instance
(a bound call such as `geofence.onClose(cb)`) or the socket (an unbound
listener dispatched by the socket's `EventEmitter`). -/
inductive Receiver where
  | geofenceThis
  | socketThis
deriving DecidableEq

/-- The observable outcome of dispatching the socket's close event: the
geofence state afterwards, the expando properties the dispatch wrote onto
the socket object, and the ids of the user callbacks that were invoked. -/
structure CloseDispatch where
  geofence : LiveGeofence
  socketProps : List (String × JSVal)
  invoked : List Nat
deriving DecidableEq

namespace LiveGeofence

/-- Run the body of `onClose` — the single assignment
`this.onCloseCallback = callback` — with a given receiver. With the geofence
as receiver it updates the geofence's slot; with the socket as receiver it
writes an expando property `onCloseCallback` onto the socket object. Either
way the body calls no function. -/
def runOnCloseBody (g : LiveGeofence) (receiver : Receiver) (callback : JSVal) :
    CloseDispatch :=
  match receiver with
  | Receiver.geofenceThis => ⟨g.onClose callback, [], []⟩
  | Receiver.socketThis => ⟨g, [("onCloseCallback", callback)], []⟩

/-- The transport's close event fires with its `hadError : Bool` argument and
the socket's `EventEmitter` dispatches the registered listener with `this`
bound to the emitter, i.e. the socket. The registered listener is the
unbound `onCloseMethod`, so its body runs with the socket as receiver. -/
def fireSocketClose (g : LiveGeofence) (hadError : Bool) : CloseDispatch :=
  match g.closeListener with
  | none => ⟨g, [], []⟩
  | some CloseListener.onCloseMethod =>
      g.runOnCloseBody Receiver.socketThis (JSVal.bool hadError)

end LiveGeofence

/-! ## Stream decoder: the `returnReply` handler of the `redis-parser`

`open` constructs the parser with a `returnReply` handler; per complete
reply frame the handler optionally logs the raw payload (debug), swallows the
`"OK"` acknowledgement, attempts a JSON decode when the payload starts with
`{` or `[` (falling back to the raw string plus a warning on failure), and
invokes the subscriber callback at most once. -/

/-- An event delivered to the subscriber callback: either a decoded object
(`JSON.parse` succeeded) or the unchanged raw string. -/
inductive LiveEvent (J : Type) where
  | object (j : J)
  | rawString (s : String)
deriving DecidableEq

/-- A logging side effect of the handler. -/
inductive LogEntry where
  | log (s : String)
  | warn (s : String)
deriving DecidableEq

/-- `rawReply.charAt(0) == "\x7b" || rawReply.charAt(0) == "["` (for the empty
string, `charAt(0)` is `""`, which is neither). -/
def headIsBracket (s : String) : Bool :=
  match s.data with
  | [] => false
  | c :: _ => c == '\x7b' || c == '['

/-- The `returnReply` handler. `parse` is the external JSON codec
(`JSON.parse`), returning `none` when it throws. The result is the list of
events passed to the subscriber callback (in order) and the log entries. -/
def returnReply {J : Type} (debug : Bool) (parse : String → Option J)
    (rawReply : String) : List (LiveEvent J) × List LogEntry :=
  let logs : List LogEntry := if debug then [LogEntry.log rawReply] else []
  if rawReply = "OK" then ([], logs)
  else if headIsBracket rawReply then
    match parse rawReply with
    | some j => ([LiveEvent.object j], logs)
    | none =>
        ([LiveEvent.rawString rawReply],
          logs ++ [LogEntry.warn ("Unable to parse server response: " ++ rawReply)])
  else ([LiveEvent.rawString rawReply], logs)

/-! ## Basic lemmas about the options object -/

/-- Reading a property right after writing it yields the written value. -/
theorem getOpt_setOpt_eq (o : Tile38QueryOptions) (k : String)
    (v : List Tile38Argument) : getOpt (setOpt o k v) k = some v := by
  simp [getOpt, setOpt, List.lookup]

/-- Writing one property leaves every other property unchanged. -/
theorem getOpt_setOpt_ne (o : Tile38QueryOptions) (k : String)
    (v : List Tile38Argument) (k' : String) (h : k' ≠ k) :
    getOpt (setOpt o k v) k' = getOpt o k' := by
  have hb : (k' == k) = false := beq_eq_false_iff_ne.mpr h
  simp [getOpt, setOpt, List.lookup, hb]

/-- Two writes to the same property: the first is unobservable. -/
theorem getOpt_setOpt_shadow (o : Tile38QueryOptions) (k : String)
    (v1 v2 : List Tile38Argument) (k' : String) :
    getOpt (setOpt (setOpt o k v1) k v2) k' = getOpt (setOpt o k v2) k' := by
  by_cases h : k' = k
  · subst h; simp [getOpt, setOpt, List.lookup]
  · have hb : (k' == k) = false := beq_eq_false_iff_ne.mpr h
    simp [getOpt, setOpt, List.lookup, hb]

/-- The rendered command is determined by the verb, the key, and the value of
each property — not by the layout of the options object. -/
theorem compile_congr (q1 q2 : Tile38Query) (ht : q1.type = q2.type)
    (hk : q1.key = q2.key)
    (ho : ∀ k, getOpt q1.options k = getOpt q2.options k) :
    q1.compileCommand = q2.compileCommand := by
  have h : getOpt q1.options = getOpt q2.options := funext ho
  simp [Tile38Query.compileCommand, Tile38Query.compileCommandArray, ht, hk, h]

/-! ## Clause-setting calls, reified

One constructor per public clause setter of `Tile38Query`, carrying the
setter's arguments, so that properties over "every clause-setting call" can
be quantified. -/

/-- One clause-setting call with its arguments. -/
inductive SetterCall where
  | cursor (start : JSNumber)
  | limit (count : JSNumber)
  | sparse (spread : JSNumber)
  | matchArg (value : Tile38Argument)
  | orderDir (direction : String)
  | distance
  | fenceArg
  | whereArg (field : String) (criteria : List Tile38Argument)
  | whereInArg (field : String) (values : List Tile38Argument)
  | whereEvalArg (script : String) (args : List Tile38Argument)
  | whereEvalShaArg (sha : String) (args : List Tile38Argument)
  | clipArg
  | noFieldsArg
  | detectArg (values : List String)
  | commandsArg (values : List String)
  | outputArg (type : String) (precision : Option JSNumber)
  | getObjectArg (key id : String)
  | boundsArg (minlat minlon maxlat maxlon : JSNumber)
  | objectArg (geojsonText : String)
  | tileArg (x y z : JSNumber)
  | quadKeyArg (quadkey : Tile38Argument)
  | hashArg (geohash : String)
  | circleArg (lat lon radius : JSNumber)
  | pointArg (lat lon : JSNumber) (meters : Option JSNumber)
  | roamArg (key pattern : String) (meters : JSNumber)
deriving DecidableEq

/-- Perform the call on a query. -/
def SetterCall.apply (q : Tile38Query) : SetterCall → Tile38Query
  | .cursor s => q.withCursor s
  | .limit c => q.withLimit c
  | .sparse s => q.withSparse s
  | .matchArg v => q.withMatch v
  | .orderDir d => q.order d
  | .distance => q.withDistance
  | .fenceArg => q.withFence
  | .whereArg f cs => q.withWhere f cs
  | .whereInArg f vs => q.withWhereIn f vs
  | .whereEvalArg s a => q.withWhereEval s a
  | .whereEvalShaArg s a => q.withWhereEvalSha s a
  | .clipArg => q.withClip
  | .noFieldsArg => q.withNoFields
  | .detectArg vs => q.withDetect vs
  | .commandsArg vs => q.withCommands vs
  | .outputArg t p => q.withOutput t p
  | .getObjectArg k i => q.withGetObject k i
  | .boundsArg a b c d => q.withBounds a b c d
  | .objectArg g => q.withObject g
  | .tileArg x y z => q.withTile x y z
  | .quadKeyArg k => q.withQuadKey k
  | .hashArg g => q.withHash g
  | .circleArg la lo r => q.withCircle la lo r
  | .pointArg la lo m => q.withPoint la lo m
  | .roamArg k p m => q.withRoam k p m

/-- The options property (the clause kind) a call writes. -/
def SetterCall.key : SetterCall → String
  | .cursor _ => "cursor"
  | .limit _ => "limit"
  | .sparse _ => "sparse"
  | .matchArg _ => "matches"
  | .orderDir _ => "order"
  | .distance => "distance"
  | .fenceArg => "fence"
  | .whereArg _ _ => "where"
  | .whereInArg _ _ => "whereIn"
  | .whereEvalArg _ _ => "whereEval"
  | .whereEvalShaArg _ _ => "whereEvalSha"
  | .clipArg => "clip"
  | .noFieldsArg => "noFields"
  | .detectArg _ => "detect"
  | .commandsArg _ => "commands"
  | .outputArg _ _ => "output"
  | .getObjectArg _ _ => "getObject"
  | .boundsArg _ _ _ _ => "bounds"
  | .objectArg _ => "geojson"
  | .tileArg _ _ _ => "tile"
  | .quadKeyArg _ => "quadKey"
  | .hashArg _ => "hash"
  | .circleArg _ _ _ => "circle"
  | .pointArg _ _ _ => "point"
  | .roamArg _ _ _ => "roam"

/-- The clause kinds that accumulate (every other kind holds one value). -/
def accumKeys : List String :=
  ["matches", "where", "whereIn", "whereEval", "whereEvalSha"]

/-- The tokens a call writes when nothing was accumulated before. -/
def SetterCall.freshTokens : SetterCall → List Tile38Argument
  | .cursor s => [.str "CURSOR", .num s]
  | .limit c => [.str "LIMIT", .num c]
  | .sparse s => [.str "SPARSE", .num s]
  | .matchArg v => [.str "MATCH", v]
  | .orderDir d => [.str d]
  | .distance => [.str "DISTANCE"]
  | .fenceArg => [.str "FENCE"]
  | .whereArg f cs => [.str "WHERE", .str f] ++ cs
  | .whereInArg f vs => [.str "WHEREIN", .str f, .num (JSNumber.ofNat vs.length)] ++ vs
  | .whereEvalArg s a =>
      [.str "WHEREEVAL", .str ("\"" ++ s ++ "\""), .num (JSNumber.ofNat a.length)] ++ a
  | .whereEvalShaArg s a =>
      [.str "WHEREEVALSHA", .str s, .num (JSNumber.ofNat a.length)] ++ a
  | .clipArg => [.str "CLIP"]
  | .noFieldsArg => [.str "NOFIELDS"]
  | .detectArg vs => [.str "DETECT", .str (String.intercalate "," vs)]
  | .commandsArg vs => [.str "COMMANDS", .str (String.intercalate "," vs)]
  | .outputArg t p =>
      (match p with
        | some pr => if t == "HASHES" && pr.isTruthy && pr.isPos
                       then [.str t, .num pr] else [.str t]
        | none => [.str t])
  | .getObjectArg k i => [.str "GET", .str k, .str i]
  | .boundsArg a b c d => [.str "BOUNDS", .num a, .num b, .num c, .num d]
  | .objectArg g => [.str "OBJECT", .str g]
  | .tileArg x y z => [.str "TILE", .num x, .num y, .num z]
  | .quadKeyArg k => [.str "QUADKEY", k]
  | .hashArg g => [.str "HASH", .str g]
  | .circleArg la lo r => [.str "CIRCLE", .num la, .num lo, .num r]
  | .pointArg la lo m =>
      (match m with
        | some mm => if mm.isTruthy
                       then [.str "POINT", .num la, .num lo, .num mm]
                       else [.str "POINT", .num la, .num lo]
        | none => [.str "POINT", .num la, .num lo])
  | .roamArg k p m => [.str "ROAM", .str k, .str p, .num m]

/-- Every call keeps the verb. -/
theorem SetterCall.apply_type (q : Tile38Query) (s : SetterCall) :
    (s.apply q).type = q.type := by
  cases s <;> rfl

/-- Every call keeps the key. -/
theorem SetterCall.apply_key (q : Tile38Query) (s : SetterCall) :
    (s.apply q).key = q.key := by
  cases s <;> rfl

/-- A call writes only its own clause kind. -/
theorem SetterCall.getOpt_apply_ne (q : Tile38Query) (s : SetterCall)
    (k : String) (h : k ≠ s.key) :
    getOpt (s.apply q).options k = getOpt q.options k := by
  cases s <;> exact getOpt_setOpt_ne _ _ _ _ h

/-- The value a call leaves at its own clause kind depends only on what was
stored there before the call. -/
theorem SetterCall.getOpt_apply_self (q1 q2 : Tile38Query) (s : SetterCall)
    (h : getOpt q1.options s.key = getOpt q2.options s.key) :
    getOpt (s.apply q1).options s.key = getOpt (s.apply q2).options s.key := by
  cases s <;>
    simp_all [SetterCall.apply, SetterCall.key, Tile38Query.setOptions,
      Tile38Query.withCursor, Tile38Query.withLimit, Tile38Query.withSparse,
      Tile38Query.withMatch, Tile38Query.order, Tile38Query.withDistance,
      Tile38Query.withFence, Tile38Query.withWhere, Tile38Query.withWhereIn,
      Tile38Query.withWhereEval, Tile38Query.withWhereEvalSha,
      Tile38Query.withClip, Tile38Query.withNoFields, Tile38Query.withDetect,
      Tile38Query.withCommands, Tile38Query.withOutput, Tile38Query.withGetObject,
      Tile38Query.withBounds, Tile38Query.withObject, Tile38Query.withTile,
      Tile38Query.withQuadKey, Tile38Query.withHash, Tile38Query.withCircle,
      Tile38Query.withPoint, Tile38Query.withRoam, getOpt_setOpt_eq]

/-- Two calls on different clause kinds commute in the rendered command. -/
theorem SetterCall.apply_comm (q : Tile38Query) (s1 s2 : SetterCall)
    (h : s1.key ≠ s2.key) :
    (s2.apply (s1.apply q)).compileCommand = (s1.apply (s2.apply q)).compileCommand := by
  apply compile_congr
  · rw [apply_type, apply_type, apply_type, apply_type]
  · rw [apply_key, apply_key, apply_key, apply_key]
  · intro k
    by_cases h1 : k = s1.key
    · subst h1
      rw [getOpt_apply_ne (s1.apply q) s2 s1.key h]
      exact getOpt_apply_self q (s2.apply q) s1 (getOpt_apply_ne q s2 s1.key h).symm
    · by_cases h2 : k = s2.key
      · subst h2
        rw [getOpt_apply_ne (s2.apply q) s1 s2.key (Ne.symm h)]
        exact getOpt_apply_self (s1.apply q) q s2 (getOpt_apply_ne q s1 s2.key (Ne.symm h))
      · rw [getOpt_apply_ne (s1.apply q) s2 k h2, getOpt_apply_ne q s1 k h1,
          getOpt_apply_ne (s2.apply q) s1 k h1, getOpt_apply_ne q s2 k h2]

/-- A non-accumulating call replaces its clause with tokens computed from the
arguments alone. -/
theorem SetterCall.apply_of_not_accum (q : Tile38Query) (s : SetterCall)
    (h : s.key ∉ accumKeys) :
    s.apply q = Tile38Query.mk q.type q.key (setOpt q.options s.key s.freshTokens) := by
  cases s
  case matchArg v => exact absurd (show "matches" ∈ accumKeys by decide) h
  case whereArg f cs => exact absurd (show "where" ∈ accumKeys by decide) h
  case whereInArg f vs => exact absurd (show "whereIn" ∈ accumKeys by decide) h
  case whereEvalArg s a => exact absurd (show "whereEval" ∈ accumKeys by decide) h
  case whereEvalShaArg s a =>
    exact absurd (show "whereEvalSha" ∈ accumKeys by decide) h
  all_goals rfl

/-! ## The claims -/

/-- C1: the spec says a query on which `withNoFields()` was called renders a
NOFIELDS token between the clip tokens and the fence tokens. In the code the
setter stores the clause under the property `noFields` while the render order
reads the property `nofields`, so the token never appears: with CLIP,
NOFIELDS and FENCE all set, the command renders as `NEARBY fleet CLIP FENCE`
even though the NOFIELDS clause is stored in the options object. -/
theorem c1_nofields_never_rendered :
    ((((Tile38Query.mk "NEARBY" "fleet" []).withClip).withNoFields).withFence).compileCommand
      = "NEARBY fleet CLIP FENCE"
    ∧ getOpt ((((Tile38Query.mk "NEARBY" "fleet" []).withClip).withNoFields).withFence).options
        "noFields" = some [Tile38Argument.str "NOFIELDS"]
    ∧ getOpt ((((Tile38Query.mk "NEARBY" "fleet" []).withClip).withNoFields).withFence).options
        "nofields" = none :=
  ⟨by decide, by decide, by decide⟩

/-- C2: the spec says that when the transport connection closes, the observer
most recently registered via `onClose(callback)` is invoked. The code wires
`socket.on("close", this.onClose)` — the unbound registration method, not
the stored callback — and the socket's EventEmitter dispatches it with
`this` bound to the socket, so when the socket closes no user callback is
invoked at all: the registered observer stays in the geofence's slot
untouched, and the close event's boolean argument lands as an expando
property on the socket object. -/
theorem c2_onclose_observer_not_invoked :
    (LiveGeofence.fireSocketClose
        ((LiveGeofence.new.openWireClose).onClose (JSVal.func 7)) false).invoked = []
    ∧ (LiveGeofence.fireSocketClose
        ((LiveGeofence.new.openWireClose).onClose (JSVal.func 7)) false).geofence.onCloseCallback
      = JSVal.func 7
    ∧ (LiveGeofence.fireSocketClose
        ((LiveGeofence.new.openWireClose).onClose (JSVal.func 7)) false).socketProps
      = [("onCloseCallback", JSVal.bool false)] :=
  ⟨rfl, rfl, rfl⟩

/-- C3: `withWhere("a",1,2)` then `withWhere("b",3,4)` renders the WHERE
segment as `WHERE b 3 4 WHERE a 1 2`, and every multi-valued setter
(`withWhere`, `withWhereIn`, `withWhereEval`, `withWhereEvalSha`,
`withMatch`) places its new tokens before the previously accumulated tokens
of the same kind. -/
theorem c3_multivalued_newest_first :
    (((Tile38Query.mk "NEARBY" "fleet" []).withWhere "a"
        [.num ⟨false, 1, []⟩, .num ⟨false, 2, []⟩]).withWhere "b"
        [.num ⟨false, 3, []⟩, .num ⟨false, 4, []⟩]).compileCommand
      = "NEARBY fleet WHERE b 3 4 WHERE a 1 2"
    ∧ (∀ (q : Tile38Query) (f : String) (cs : List Tile38Argument),
        getOpt (q.withWhere f cs).options "where"
          = some ([.str "WHERE", .str f] ++ cs ++ (getOpt q.options "where").getD []))
    ∧ (∀ (q : Tile38Query) (f : String) (vs : List Tile38Argument),
        getOpt (q.withWhereIn f vs).options "whereIn"
          = some ([.str "WHEREIN", .str f, .num (JSNumber.ofNat vs.length)] ++ vs
              ++ (getOpt q.options "whereIn").getD []))
    ∧ (∀ (q : Tile38Query) (sc : String) (args : List Tile38Argument),
        getOpt (q.withWhereEval sc args).options "whereEval"
          = some ([.str "WHEREEVAL", .str ("\"" ++ sc ++ "\""),
              .num (JSNumber.ofNat args.length)] ++ args
              ++ (getOpt q.options "whereEval").getD []))
    ∧ (∀ (q : Tile38Query) (sha : String) (args : List Tile38Argument),
        getOpt (q.withWhereEvalSha sha args).options "whereEvalSha"
          = some ([.str "WHEREEVALSHA", .str sha, .num (JSNumber.ofNat args.length)]
              ++ args ++ (getOpt q.options "whereEvalSha").getD []))
    ∧ (∀ (q : Tile38Query) (v : Tile38Argument),
        getOpt (q.withMatch v).options "matches"
          = some ([.str "MATCH", v] ++ (getOpt q.options "matches").getD [])) := by
  refine ⟨by decide, ?_, ?_, ?_, ?_, ?_⟩ <;> intros <;> exact getOpt_setOpt_eq _ _ _

/-- C4: `Query("NEARBY","fleet").withPoint(33.46,-112.27).withCursor(1)`
compiles to exactly `NEARBY fleet CURSOR 1 POINT 33.46 -112.27`. -/
theorem c4_nearby_cursor_point_render :
    (((Tile38Query.mk "NEARBY" "fleet" []).withPoint ⟨false, 33, [4, 6]⟩
        ⟨true, 112, [2, 7]⟩ none).withCursor ⟨false, 1, []⟩).compileCommand
      = "NEARBY fleet CURSOR 1 POINT 33.46 -112.27" := by decide

/-- C5: the relative position of clause tokens depends only on the fixed
clause-order table, not on the order the setters were called: two
clause-setting calls of different kinds commute in the rendered command, and
concretely calling withLimit before withCursor still renders CURSOR before
LIMIT. -/
theorem c5_render_ignores_call_order :
    (((Tile38Query.mk "NEARBY" "test" []).withLimit ⟨false, 5, []⟩).withCursor
        ⟨false, 1, []⟩).compileCommand = "NEARBY test CURSOR 1 LIMIT 5"
    ∧ ∀ (q : Tile38Query) (s1 s2 : SetterCall), s1.key ≠ s2.key →
        (s2.apply (s1.apply q)).compileCommand
          = (s1.apply (s2.apply q)).compileCommand :=
  ⟨by decide, fun q s1 s2 h => SetterCall.apply_comm q s1 s2 h⟩

/-- Witness for C5: limit set before cursor, two different clause kinds. -/
theorem c5_render_ignores_call_order_witness :
    ((SetterCall.cursor ⟨false, 1, []⟩).apply
        ((SetterCall.limit ⟨false, 5, []⟩).apply
          (Tile38Query.mk "NEARBY" "test" []))).compileCommand
      = ((SetterCall.limit ⟨false, 5, []⟩).apply
          ((SetterCall.cursor ⟨false, 1, []⟩).apply
            (Tile38Query.mk "NEARBY" "test" []))).compileCommand :=
  c5_render_ignores_call_order.2 (Tile38Query.mk "NEARBY" "test" [])
    (SetterCall.limit ⟨false, 5, []⟩) (SetterCall.cursor ⟨false, 1, []⟩) (by decide)

/-- C6 counterexample: the spec says a `withSparse` call with a spread value
outside 1..8 fails with an InvalidArgument error and leaves the query
unchanged. At runtime the call with spread 9 succeeds, stores the clause and
changes the compiled command to `NEARBY test SPARSE 9`. -/
theorem c6_sparse_nine_renders :
    ((Tile38Query.mk "NEARBY" "test" []).withSparse ⟨false, 9, []⟩).compileCommand
      = "NEARBY test SPARSE 9"
    ∧ ((Tile38Query.mk "NEARBY" "test" []).withSparse ⟨false, 9, []⟩).compileCommand
      ≠ (Tile38Query.mk "NEARBY" "test" []).compileCommand :=
  ⟨by decide, by decide⟩

/-- C6 amended: the out-of-range rejection exists only in the static type of
the parameter (the literal union 1..8); at runtime `withSparse`
unconditionally stores `["SPARSE", spread]` for every spread value, raising
no error. -/
theorem c6_sparse_stores_unconditionally :
    ∀ (q : Tile38Query) (spread : JSNumber),
      getOpt (q.withSparse spread).options "sparse"
        = some [Tile38Argument.str "SPARSE", Tile38Argument.num spread] :=
  fun _ _ => getOpt_setOpt_eq _ _ _

/-- C7: for every single-value clause kind (every kind except the
accumulating MATCH/WHERE/WHEREIN/WHEREEVAL/WHEREEVALSHA), calling the kind's
setter twice renders the same command as calling it once with the second
value; concretely LIMIT 1 then LIMIT 2 renders only LIMIT 2. -/
theorem c7_single_value_second_wins :
    (((Tile38Query.mk "NEARBY" "test" []).withLimit ⟨false, 1, []⟩).withLimit
        ⟨false, 2, []⟩).compileCommand = "NEARBY test LIMIT 2"
    ∧ ∀ (q : Tile38Query) (s1 s2 : SetterCall), s1.key = s2.key →
        s2.key ∉ accumKeys →
        (s2.apply (s1.apply q)).compileCommand = (s2.apply q).compileCommand := by
  refine ⟨by decide, fun q s1 s2 hk hacc => ?_⟩
  apply compile_congr
  · rw [SetterCall.apply_type, SetterCall.apply_type, SetterCall.apply_type]
  · rw [SetterCall.apply_key, SetterCall.apply_key, SetterCall.apply_key]
  · intro k
    by_cases h : k = s2.key
    · subst h
      rw [SetterCall.apply_of_not_accum (s1.apply q) s2 hacc,
        SetterCall.apply_of_not_accum q s2 hacc]
      simp [getOpt_setOpt_eq]
    · rw [SetterCall.getOpt_apply_ne (s1.apply q) s2 k h,
        SetterCall.getOpt_apply_ne q s1 k (fun e => h (e.trans hk)),
        SetterCall.getOpt_apply_ne q s2 k h]

/-- Witness for C7: the limit kind, set to 1 and then to 2. -/
theorem c7_single_value_second_wins_witness :
    ((SetterCall.limit ⟨false, 2, []⟩).apply
        ((SetterCall.limit ⟨false, 1, []⟩).apply
          (Tile38Query.mk "NEARBY" "test" []))).compileCommand
      = ((SetterCall.limit ⟨false, 2, []⟩).apply
          (Tile38Query.mk "NEARBY" "test" [])).compileCommand :=
  c7_single_value_second_wins.2 (Tile38Query.mk "NEARBY" "test" [])
    (SetterCall.limit ⟨false, 1, []⟩) (SetterCall.limit ⟨false, 2, []⟩)
    (by decide) (by decide)

/-- C8: a reply frame whose payload begins with a brace or bracket but fails
to decode is delivered to the subscriber as the unchanged raw string,
together with a diagnostic warning; the handler returns normally, so the
decode failure never escapes the decoder. -/
theorem c8_bad_json_delivered_raw {J : Type} (debug : Bool)
    (parse : String → Option J) (rawReply : String)
    (hb : headIsBracket rawReply = true) (hp : parse rawReply = none) :
    returnReply debug parse rawReply
      = ([LiveEvent.rawString rawReply],
          (if debug then [LogEntry.log rawReply] else [])
            ++ [LogEntry.warn ("Unable to parse server response: " ++ rawReply)]) := by
  have hOK : rawReply ≠ "OK" := by
    intro e; subst e; exact absurd hb (by decide)
  simp [returnReply, hOK, hb, hp]

/-- Witness for C8: the undecodable payload `{bad` with a failing codec. -/
theorem c8_bad_json_delivered_raw_witness :
    headIsBracket "\x7bbad" = true
    ∧ (fun _ : String => (none : Option Unit)) "\x7bbad" = none
    ∧ returnReply false (fun _ : String => (none : Option Unit)) "\x7bbad"
      = ([LiveEvent.rawString "\x7bbad"],
          [LogEntry.warn ("Unable to parse server response: \x7bbad")]) :=
  ⟨by decide, rfl,
    c8_bad_json_delivered_raw false (fun _ => none) "\x7bbad" (by decide) rfl⟩

/-- C9: the plain "OK" acknowledgement frame yields zero events — the
subscriber callback is never invoked for it — and every other complete frame
yields at most one event. -/
theorem c9_ack_yields_no_event {J : Type} (debug : Bool)
    (parse : String → Option J) :
    (returnReply debug parse "OK").1 = []
    ∧ ∀ rawReply : String, (returnReply debug parse rawReply).1.length ≤ 1 := by
  constructor
  · simp [returnReply]
  · intro raw
    by_cases hOK : raw = "OK"
    · subst hOK; simp [returnReply]
    · by_cases hb : headIsBracket raw
      · cases hp : parse raw <;> simp [returnReply, hOK, hb, hp]
      · simp [returnReply, hOK, hb]

/-- C10: `withPoint(lat, lon, 0)` stores exactly what `withPoint(lat, lon)`
stores — no distance token — and the meters token is appended exactly when
meters is truthy (nonzero). -/
theorem c10_point_zero_meters_omitted :
    (∀ (q : Tile38Query) (lat lon : JSNumber),
      q.withPoint lat lon (some ⟨false, 0, []⟩) = q.withPoint lat lon none)
    ∧ ((Tile38Query.mk "NEARBY" "test" []).withPoint ⟨false, 0, []⟩ ⟨false, 0, []⟩
        (some ⟨false, 0, []⟩)).compileCommand = "NEARBY test POINT 0 0"
    ∧ ∀ (q : Tile38Query) (lat lon m : JSNumber),
        getOpt (q.withPoint lat lon (some m)).options "point"
          = some (if m.isTruthy
              then [.str "POINT", .num lat, .num lon, .num m]
              else [.str "POINT", .num lat, .num lon]) := by
  refine ⟨fun q lat lon => rfl, by decide, fun q lat lon m => ?_⟩
  cases hm : m.isTruthy <;>
    simp [Tile38Query.withPoint, Tile38Query.setOptions, hm, getOpt_setOpt_eq]

end Tile38
